import Mathlib

/-!
Shallow embedding of the logging-middleware repository: the standalone
logging module (`starter-code/logger.ts`, namespace `Starter`), the
library module used by the demo UI (`src/lib/logger.ts`, namespace `Lib`),
and the demo UI's `sendLog` handler (`LoggingDemo`, namespace `Demo`).

Strings of the TypeScript runtime are modelled as Lean `String`;
`toLowerCase` and `trim` are modelled over the character list (`String.data`)
with ASCII case mapping and the JavaScript whitespace set. Network effects
are modelled by passing the HTTP response in explicitly: each operation
returns the value/error it would produce for that response, paired with the
outbound fetch request it issues (or `none` when it aborts before fetching).
-/

/-- Character-level model of JavaScript `String.prototype.toLowerCase`
restricted to ASCII case mapping, which covers all enumeration values. -/
def jsToLower (s : String) : String :=
  ⟨s.data.map Char.toLower⟩

/-- Whitespace recognised by JavaScript `String.prototype.trim`:
tab, LF, VT, FF, CR, space, NBSP, BOM and the Unicode line separators. -/
def jsWhitespace (c : Char) : Bool :=
  c.toNat = 0x20 || c.toNat = 0x09 || c.toNat = 0x0a || c.toNat = 0x0d ||
  c.toNat = 0x0b || c.toNat = 0x0c || c.toNat = 0xa0 ||
  c.toNat = 0x2028 || c.toNat = 0x2029 || c.toNat = 0xfeff

/-- Trim over character lists: drop leading whitespace, then drop trailing
whitespace by reversing, dropping, and reversing back. -/
def trimChars (l : List Char) : List Char :=
  ((l.dropWhile jsWhitespace).reverse.dropWhile jsWhitespace).reverse

/-- Model of JavaScript `String.prototype.trim`. -/
def jsTrim (s : String) : String :=
  ⟨trimChars s.data⟩

/-- Model of the `Response.ok` getter: status in the inclusive range 200-299. -/
def respOk (status : Nat) : Bool :=
  200 ≤ status && status ≤ 299

/-- The closed 5-value severity enumeration (`LogLevel`). -/
def LEVELS : List String := ["debug", "info", "warn", "error", "fatal"]

/-- The closed 10-value package/category enumeration (`FrontendPackage`). -/
def PACKAGES : List String :=
  ["api", "component", "hook", "page", "state", "style",
   "auth", "config", "middleware", "utils"]

/-- Outbound log payload (`LogRequest` in both modules). -/
structure LogRequest where
  stack : String
  level : String
  package : String
  message : String
deriving Repr, DecidableEq

/-- Server acknowledgment for a log (`LogResponse` in both modules). -/
structure LogResponse where
  logID : String
  message : String
deriving Repr, DecidableEq

/-- The HTTP response of the logs endpoint, as observed by the client:
its status, its body as text (`response.text()`), and its body parsed
as a `LogResponse` (`response.json()`). -/
structure LogsHttpResp where
  status : Nat
  bodyText : String
  bodyJson : LogResponse
deriving Repr, DecidableEq

/-- Credentials posted to the auth endpoint (`AuthCredentials`). -/
structure AuthCredentials where
  email : String
  name : String
  rollNo : String
  accessCode : String
  clientID : String
  clientSecret : String
deriving Repr, DecidableEq

/-- Body of a successful auth response (`AuthResponse`); `token_type` is
kept as a string since it is read from the wire. -/
structure AuthResponse where
  token_type : String
  access_token : String
  expires_in : Int
deriving Repr, DecidableEq

/-- The HTTP response of the auth endpoint: status and parsed JSON body. -/
structure AuthHttpResp where
  status : Nat
  bodyJson : AuthResponse
deriving Repr, DecidableEq

/-- Errors thrown by the modules: local validation failures (carrying the
literal message of the thrown `Error`), delivery failures from the logs
endpoint (carrying the HTTP status and, when the variant reads it, the
response body text), and auth failures (carrying the HTTP status). -/
inductive JsError where
  | validation (msg : String)
  | logDelivery (status : Nat) (bodyText : Option String)
  | authFailure (status : Nat)
deriving Repr, DecidableEq

/-- Base URL of the evaluation service (`API_BASE_URL`). -/
def API_BASE_URL : String := "http://20.244.56.144/evaluation-service"

/-- Auth endpoint URL (`AUTH_ENDPOINT`). -/
def AUTH_ENDPOINT : String := API_BASE_URL ++ "/auth"

/-- Logs endpoint URL (`LOGS_ENDPOINT`). -/
def LOGS_ENDPOINT : String := API_BASE_URL ++ "/logs"

/-- A fetch issued to the logs endpoint: URL, method, `Content-Type` and
`Authorization` headers, and the JSON body (kept structured). -/
structure LogsFetch where
  url : String
  method : String
  contentType : String
  authorization : String
  body : LogRequest
deriving Repr, DecidableEq

/-- A fetch issued to the auth endpoint: URL, method, `Content-Type`
header and the JSON body (the credentials, kept structured). -/
structure AuthFetch where
  url : String
  method : String
  contentType : String
  body : AuthCredentials
deriving Repr, DecidableEq

namespace Starter

/-- Standalone variant `logToServer` (starter-code/logger.ts): validates
token and message locally, throwing before any fetch when either is empty;
otherwise builds the payload with `stack: "frontend"`, lowercased level and
package, trimmed message, POSTs it with a bearer header, fails on a
non-success status with an error carrying the status and the response body
text, and returns the parsed JSON body on success. The second component is
the fetch it issued, `none` when validation aborted the call. -/
def logToServer (token level pkg message : String) (resp : LogsHttpResp) :
    Except JsError LogResponse × Option LogsFetch :=
  if token = "" then
    (.error (.validation "Valid bearer token is required"), none)
  else if message = "" then
    (.error (.validation "Log message is required"), none)
  else
    let req : LogsFetch :=
      { url := LOGS_ENDPOINT
        method := "POST"
        contentType := "application/json"
        authorization := "Bearer " ++ token
        body := { stack := "frontend"
                  level := jsToLower level
                  package := jsToLower pkg
                  message := jsTrim message } }
    (if respOk resp.status then .ok resp.bodyJson
     else .error (.logDelivery resp.status (some resp.bodyText)), some req)

/-- The record of bound functions returned by the standalone `createLogger`. -/
structure Logger where
  debug : String → String → LogsHttpResp → Except JsError LogResponse × Option LogsFetch
  info : String → String → LogsHttpResp → Except JsError LogResponse × Option LogsFetch
  warn : String → String → LogsHttpResp → Except JsError LogResponse × Option LogsFetch
  error : String → String → LogsHttpResp → Except JsError LogResponse × Option LogsFetch
  fatal : String → String → LogsHttpResp → Except JsError LogResponse × Option LogsFetch

/-- Standalone `createLogger`: binds the token and exposes one function per
severity level, each delegating to `logToServer` with that level. -/
def createLogger (token : String) : Logger :=
  { debug := fun pkg message => logToServer token "debug" pkg message
    info := fun pkg message => logToServer token "info" pkg message
    warn := fun pkg message => logToServer token "warn" pkg message
    error := fun pkg message => logToServer token "error" pkg message
    fatal := fun pkg message => logToServer token "fatal" pkg message }

end Starter

namespace Lib

/-- Library variant `logToServer` (src/lib/logger.ts, used by the demo UI):
no local validation, builds the payload with `stack: "frontend"`, lowercased
level and package, and the message passed through untrimmed, always issues
the fetch, fails on a non-success status with an error carrying only the
status, and returns the parsed JSON body on success. -/
def logToServer (token level pkg message : String) (resp : LogsHttpResp) :
    Except JsError LogResponse × LogsFetch :=
  let req : LogsFetch :=
    { url := LOGS_ENDPOINT
      method := "POST"
      contentType := "application/json"
      authorization := "Bearer " ++ token
      body := { stack := "frontend"
                level := jsToLower level
                package := jsToLower pkg
                message := message } }
  (if respOk resp.status then .ok resp.bodyJson
   else .error (.logDelivery resp.status none), req)

/-- Library `authenticate`: POSTs the credentials as a JSON body to the auth
endpoint on every call (no caching), fails on a non-success status with an
error carrying the status, and returns the parsed JSON body on success. -/
def authenticate (credentials : AuthCredentials) (resp : AuthHttpResp) :
    Except JsError AuthResponse × AuthFetch :=
  let req : AuthFetch :=
    { url := AUTH_ENDPOINT
      method := "POST"
      contentType := "application/json"
      body := credentials }
  (if respOk resp.status then .ok resp.bodyJson
   else .error (.authFailure resp.status), req)

/-- The record of bound functions returned by the library `createLogger`. -/
structure Logger where
  debug : String → String → LogsHttpResp → Except JsError LogResponse × LogsFetch
  info : String → String → LogsHttpResp → Except JsError LogResponse × LogsFetch
  warn : String → String → LogsHttpResp → Except JsError LogResponse × LogsFetch
  error : String → String → LogsHttpResp → Except JsError LogResponse × LogsFetch
  fatal : String → String → LogsHttpResp → Except JsError LogResponse × LogsFetch

/-- Library `createLogger`: binds the token and exposes one function per
severity level, each delegating to `logToServer` with that level. -/
def createLogger (token : String) : Logger :=
  { debug := fun pkg message => logToServer token "debug" pkg message
    info := fun pkg message => logToServer token "info" pkg message
    warn := fun pkg message => logToServer token "warn" pkg message
    error := fun pkg message => logToServer token "error" pkg message
    fatal := fun pkg message => logToServer token "fatal" pkg message }

end Lib

namespace Demo

/-- Display status of a retained log entry (`"success" | "error"`). -/
inductive EntryStatus where
  | success
  | error
deriving Repr, DecidableEq

/-- A retained log entry of the demo UI (`LogEntry`). -/
structure LogEntry where
  id : String
  timestamp : String
  level : String
  package : String
  message : String
  status : EntryStatus
deriving Repr, DecidableEq

/-- The entry `sendLog` constructs for the retained list: on success its id
is the server-issued `logID` and its status is success; on failure its id is
`error-` followed by `Date.now()` and its status is error. The timestamp
`ts` stands for `new Date().toLocaleTimeString()`. -/
def newEntry (level pkg message : String) (resp : LogsHttpResp) (now ts : String) :
    LogEntry :=
  if respOk resp.status then
    { id := resp.bodyJson.logID, timestamp := ts, level := level,
      package := pkg, message := message, status := .success }
  else
    { id := "error-" ++ now, timestamp := ts, level := level,
      package := pkg, message := message, status := .error }

/-- Demo UI `sendLog` handler (`LoggingDemo`): the `if (!token)` guard is
true in JavaScript both for a null token and for the empty-string token, so
in either case it shows a notice and returns, leaving the retained list
unchanged and issuing no fetch; with a non-empty token it calls the library
`logToServer`, and in both the success and the failure branch prepends the
corresponding new entry and keeps only the first 10 entries
(`.slice(0, 10)`). `now` stands for `Date.now()` and `ts` for the locale
time string. Returns the updated retained list and the fetch issued,
if any. -/
def sendLog (token : Option String) (level pkg message : String)
    (resp : LogsHttpResp) (now ts : String) (logs : List LogEntry) :
    List LogEntry × Option LogsFetch :=
  match token with
  | none => (logs, none)
  | some tok =>
    if tok = "" then (logs, none)
    else match Lib.logToServer tok level pkg message resp with
    | (.ok r, req) =>
      (({ id := r.logID, timestamp := ts, level := level, package := pkg,
          message := message, status := .success } :: logs).take 10, some req)
    | (.error _, req) =>
      (({ id := "error-" ++ now, timestamp := ts, level := level, package := pkg,
          message := message, status := .error } :: logs).take 10, some req)

end Demo

/-- A sample successful logs-endpoint response, used to instantiate
universally quantified theorems at concrete inputs. -/
def sampleOkResp : LogsHttpResp :=
  { status := 200, bodyText := "",
    bodyJson := { logID := "log-123", message := "log created successfully" } }

/-- A sample failing (401) logs-endpoint response. -/
def sampleFailResp : LogsHttpResp :=
  { status := 401, bodyText := "Unauthorized",
    bodyJson := { logID := "", message := "" } }

/-- A sample credential set. -/
def sampleCreds : AuthCredentials :=
  { email := "jane@example.com", name := "Jane", rollNo := "220102451",
    accessCode := "code", clientID := "cid", clientSecret := "secret" }

/-- A sample successful auth-endpoint response. -/
def sampleAuthResp : AuthHttpResp :=
  { status := 200,
    bodyJson := { token_type := "Bearer", access_token := "tok-abc", expires_in := 3600 } }

/-- Dropping a prefix twice with the same predicate is the same as dropping
it once: the result of `dropWhile` starts with an element refuting `p`. -/
theorem dropWhile_dropWhile {α : Type} (p : α → Bool) (l : List α) :
    (l.dropWhile p).dropWhile p = l.dropWhile p := by
  induction l with
  | nil => rfl
  | cons a t ih =>
    by_cases h : p a
    · rw [List.dropWhile_cons_of_pos h]; exact ih
    · rw [List.dropWhile_cons_of_neg h, List.dropWhile_cons_of_neg h]

/-- Dropping a prefix never lengthens a list. -/
theorem length_dropWhile_le_len {α : Type} (p : α → Bool) (l : List α) :
    (l.dropWhile p).length ≤ l.length := by
  induction l with
  | nil => exact Nat.le_refl _
  | cons a t ih =>
    by_cases h : p a
    · rw [List.dropWhile_cons_of_pos h]
      exact Nat.le_trans ih (Nat.le_succ _)
    · rw [List.dropWhile_cons_of_neg h]

/-- A list all of whose elements are untouched by `dropWhile` stays
untouched on any of its prefixes (stated through an explicit append). -/
theorem dropWhile_eq_self_of_append {α : Type} (p : α → Bool) (m t : List α)
    (h : (m ++ t).dropWhile p = m ++ t) : m.dropWhile p = m := by
  cases m with
  | nil => rfl
  | cons a u =>
    by_cases hp : p a
    · exfalso
      rw [List.cons_append, List.dropWhile_cons_of_pos hp] at h
      have hlen := congrArg List.length h
      have hle : ((u ++ t).dropWhile p).length ≤ (u ++ t).length :=
        length_dropWhile_le_len p (u ++ t)
      rw [hlen] at hle
      simp at hle
    · rw [List.dropWhile_cons_of_neg hp]

/-- The result of `dropWhile` is a suffix: some prefix rebuilds the list. -/
theorem dropWhile_suffix_exists {α : Type} (p : α → Bool) (l : List α) :
    ∃ t, t ++ l.dropWhile p = l := by
  induction l with
  | nil => exact ⟨[], rfl⟩
  | cons a u ih =>
    by_cases hp : p a
    · obtain ⟨t, ht⟩ := ih
      exact ⟨a :: t, by rw [List.dropWhile_cons_of_pos hp, List.cons_append, ht]⟩
    · exact ⟨[], by rw [List.dropWhile_cons_of_neg hp, List.nil_append]⟩

/-- Character-level trimming is idempotent. -/
theorem trimChars_idem (l : List Char) : trimChars (trimChars l) = trimChars l := by
  unfold trimChars
  obtain ⟨t, ht⟩ :=
    dropWhile_suffix_exists jsWhitespace (l.dropWhile jsWhitespace).reverse
  have hApre :
      ((l.dropWhile jsWhitespace).reverse.dropWhile jsWhitespace).reverse ++ t.reverse
        = l.dropWhile jsWhitespace := by
    have hrev := congrArg List.reverse ht
    simpa using hrev
  have hX :
      ((l.dropWhile jsWhitespace).reverse.dropWhile jsWhitespace).reverse.dropWhile
          jsWhitespace
        = ((l.dropWhile jsWhitespace).reverse.dropWhile jsWhitespace).reverse := by
    apply dropWhile_eq_self_of_append jsWhitespace _ t.reverse
    rw [hApre]
    exact dropWhile_dropWhile jsWhitespace l
  rw [hX, List.reverse_reverse, dropWhile_dropWhile]

/-- Model-level `trim` is idempotent. -/
theorem jsTrim_idem (s : String) : jsTrim (jsTrim s) = jsTrim s :=
  congrArg String.mk (trimChars_idem s.data)

/-- C1: for every call to the Log Sender, in either variant, with any token,
level, package tag, and message, the outbound payload (whenever one is
issued) has the stack field fixed to "frontend" and the level and package
lowercased, regardless of input casing. -/
theorem logSender_payload_stack_frontend_and_lowercased
    (token level pkg message : String) (resp : LogsHttpResp) :
    ((Lib.logToServer token level pkg message resp).2.body.stack = "frontend"
      ∧ (Lib.logToServer token level pkg message resp).2.body.level = jsToLower level
      ∧ (Lib.logToServer token level pkg message resp).2.body.package = jsToLower pkg)
    ∧ (match (Starter.logToServer token level pkg message resp).2 with
       | none => True
       | some req => req.body.stack = "frontend"
           ∧ req.body.level = jsToLower level
           ∧ req.body.package = jsToLower pkg) := by
  refine ⟨⟨rfl, rfl, rfl⟩, ?_⟩
  by_cases h1 : token = ""
  · simp [Starter.logToServer, h1]
  · by_cases h2 : message = ""
    · simp [Starter.logToServer, h1, h2]
    · simp [Starter.logToServer, h1, h2]

/-- C5: each of the five functions returned by `createLogger`, in both
variants, is exactly `logToServer` with that severity level pre-filled:
same result and same outbound fetch on every input. -/
theorem createLogger_forwards_to_logSender
    (token pkg message : String) (resp : LogsHttpResp) :
    ((Starter.createLogger token).debug pkg message resp
        = Starter.logToServer token "debug" pkg message resp
      ∧ (Starter.createLogger token).info pkg message resp
        = Starter.logToServer token "info" pkg message resp
      ∧ (Starter.createLogger token).warn pkg message resp
        = Starter.logToServer token "warn" pkg message resp
      ∧ (Starter.createLogger token).error pkg message resp
        = Starter.logToServer token "error" pkg message resp
      ∧ (Starter.createLogger token).fatal pkg message resp
        = Starter.logToServer token "fatal" pkg message resp)
    ∧ ((Lib.createLogger token).debug pkg message resp
        = Lib.logToServer token "debug" pkg message resp
      ∧ (Lib.createLogger token).info pkg message resp
        = Lib.logToServer token "info" pkg message resp
      ∧ (Lib.createLogger token).warn pkg message resp
        = Lib.logToServer token "warn" pkg message resp
      ∧ (Lib.createLogger token).error pkg message resp
        = Lib.logToServer token "error" pkg message resp
      ∧ (Lib.createLogger token).fatal pkg message resp
        = Lib.logToServer token "fatal" pkg message resp) :=
  ⟨⟨rfl, rfl, rfl, rfl, rfl⟩, ⟨rfl, rfl, rfl, rfl, rfl⟩⟩

/-- C10: with a null token, the demo UI's `sendLog` returns immediately:
the retained log list is unchanged and no fetch is issued. -/
theorem sendLog_no_token_frame
    (level pkg message : String) (resp : LogsHttpResp)
    (now ts : String) (logs : List Demo.LogEntry) :
    Demo.sendLog none level pkg message resp now ts logs = (logs, none) :=
  rfl

/-- C2: every `authenticate` call POSTs the credentials as a JSON body to
the auth endpoint (identically on every call, so nothing is cached); on a
non-success status it fails with an error carrying the status code, and on
a 2xx response whose body carries token type "Bearer" it returns that body
verbatim, hence token type "Bearer" and the exact access token. -/
theorem authenticate_single_post_and_bearer
    (credentials : AuthCredentials) (resp : AuthHttpResp) :
    (Lib.authenticate credentials resp).2 =
      { url := AUTH_ENDPOINT, method := "POST",
        contentType := "application/json", body := credentials }
    ∧ (respOk resp.status = false →
        (Lib.authenticate credentials resp).1 = .error (.authFailure resp.status))
    ∧ (respOk resp.status = true →
        (Lib.authenticate credentials resp).1 = .ok resp.bodyJson
        ∧ (resp.bodyJson.token_type = "Bearer" →
            ∀ r, (Lib.authenticate credentials resp).1 = .ok r →
              r.token_type = "Bearer"
                ∧ r.access_token = resp.bodyJson.access_token)) := by
  refine ⟨rfl, fun hbad => ?_, fun hok => ⟨?_, fun hb r hr => ?_⟩⟩
  · simp [Lib.authenticate, hbad]
  · simp [Lib.authenticate, hok]
  · have : Except.ok (ε := JsError) resp.bodyJson = .ok r := by
      rw [← hr]; simp [Lib.authenticate, hok]
    cases this
    exact ⟨hb, rfl⟩

/-- Witness for C2 at a concrete credential set and a mocked 200 response. -/
theorem authenticate_single_post_and_bearer_witness :
    respOk sampleAuthResp.status = true
    ∧ sampleAuthResp.bodyJson.token_type = "Bearer"
    ∧ (Lib.authenticate sampleCreds sampleAuthResp).1 = .ok sampleAuthResp.bodyJson
    ∧ (Lib.authenticate sampleCreds sampleAuthResp).2 =
        { url := AUTH_ENDPOINT, method := "POST",
          contentType := "application/json", body := sampleCreds } :=
  ⟨by decide, by decide,
    ((authenticate_single_post_and_bearer sampleCreds sampleAuthResp).2.2
      (by decide)).1,
    (authenticate_single_post_and_bearer sampleCreds sampleAuthResp).1⟩

/-- C3: when the logs endpoint answers with a non-success status, the
standalone Log Sender fails with an error carrying the status and the
response body text, the UI-bound Log Sender fails with an error carrying
the status, and, whenever the demo UI holds a token its guard lets through
(a non-empty one, since `!token` is also true for the empty string), its
retained list receives a failure-status entry (prepended, then truncated
to 10). -/
theorem logSender_failure_delivery_and_demo_entry
    (token level pkg message : String) (resp : LogsHttpResp)
    (hfail : respOk resp.status = false) :
    (token ≠ "" → message ≠ "" →
      (Starter.logToServer token level pkg message resp).1
        = .error (.logDelivery resp.status (some resp.bodyText)))
    ∧ (Lib.logToServer token level pkg message resp).1
        = .error (.logDelivery resp.status none)
    ∧ ∀ tok, tok ≠ "" → ∀ now ts logs,
        ∃ e, (Demo.sendLog (some tok) level pkg message resp now ts logs).1
            = (e :: logs).take 10
          ∧ e.status = .error := by
  refine ⟨fun h1 h2 => ?_, ?_, fun tok htok now ts logs => ?_⟩
  · simp [Starter.logToServer, h1, h2, hfail]
  · simp [Lib.logToServer, hfail]
  · refine ⟨{ id := "error-" ++ now, timestamp := ts, level := level,
              package := pkg, message := message, status := .error }, ?_, rfl⟩
    simp [Demo.sendLog, Lib.logToServer, hfail, htok]

/-- Witness for C3 at a concrete mocked 401 response and a concrete
non-empty token. -/
theorem logSender_failure_delivery_and_demo_entry_witness :
    respOk sampleFailResp.status = false
    ∧ (Lib.logToServer "tok" "error" "api" "boom" sampleFailResp).1
        = .error (.logDelivery sampleFailResp.status none)
    ∧ (Starter.logToServer "tok" "error" "api" "boom" sampleFailResp).1
        = .error (.logDelivery sampleFailResp.status (some sampleFailResp.bodyText))
    ∧ ("tok" : String) ≠ ""
    ∧ ∃ e, (Demo.sendLog (some "tok") "error" "api" "boom" sampleFailResp
          "99" "12:00" []).1 = (e :: ([] : List Demo.LogEntry)).take 10
        ∧ e.status = .error :=
  ⟨by decide,
    (logSender_failure_delivery_and_demo_entry "tok" "error" "api" "boom"
      sampleFailResp (by decide)).2.1,
    (logSender_failure_delivery_and_demo_entry "tok" "error" "api" "boom"
      sampleFailResp (by decide)).1 (by decide) (by decide),
    by decide,
    (logSender_failure_delivery_and_demo_entry "tok" "error" "api" "boom"
      sampleFailResp (by decide)).2.2 "tok" (by decide) "99" "12:00" []⟩

/-- C4: the standalone Log Sender fails locally, before any fetch, with a
validation error when the token or the message is empty (checking the token
first); with both non-empty it always issues the fetch, whatever the level
and package, and any error it then produces is a delivery error, never a
validation error. The UI-bound variant performs no local pre-check: it
issues the fetch unconditionally, even with empty token and message. -/
theorem standaloneValidation_vs_uiNoPrecheck
    (token level pkg message : String) (resp : LogsHttpResp) :
    (token = "" →
      Starter.logToServer token level pkg message resp
        = (.error (.validation "Valid bearer token is required"), none))
    ∧ (token ≠ "" → message = "" →
      Starter.logToServer token level pkg message resp
        = (.error (.validation "Log message is required"), none))
    ∧ (token ≠ "" → message ≠ "" →
        (∃ req, (Starter.logToServer token level pkg message resp).2 = some req)
        ∧ ∀ m, (Starter.logToServer token level pkg message resp).1
            ≠ .error (.validation m))
    ∧ ((Lib.logToServer token level pkg message resp).2.url = LOGS_ENDPOINT
        ∧ (Lib.logToServer token level pkg message resp).2.body.message = message) := by
  refine ⟨fun h1 => ?_, fun h1 h2 => ?_, fun h1 h2 => ⟨?_, fun m => ?_⟩,
    rfl, rfl⟩
  · simp [Starter.logToServer, h1]
  · simp [Starter.logToServer, h1, h2]
  · refine ⟨{ url := LOGS_ENDPOINT, method := "POST",
              contentType := "application/json",
              authorization := "Bearer " ++ token,
              body := { stack := "frontend", level := jsToLower level,
                        package := jsToLower pkg,
                        message := jsTrim message } }, ?_⟩
    simp [Starter.logToServer, h1, h2]
  · by_cases hok : respOk resp.status <;>
      simp [Starter.logToServer, h1, h2, hok]

/-- Witness for C4 at concrete empty and non-empty inputs. -/
theorem standaloneValidation_vs_uiNoPrecheck_witness :
    Starter.logToServer "" "info" "api" "msg" sampleOkResp
      = (.error (.validation "Valid bearer token is required"), none)
    ∧ Starter.logToServer "tok" "info" "api" "" sampleOkResp
      = (.error (.validation "Log message is required"), none)
    ∧ (Lib.logToServer "" "info" "api" "" sampleOkResp).2.url = LOGS_ENDPOINT :=
  ⟨(standaloneValidation_vs_uiNoPrecheck "" "info" "api" "msg" sampleOkResp).1 rfl,
    (standaloneValidation_vs_uiNoPrecheck "tok" "info" "api" "" sampleOkResp).2.1
      (by decide) rfl,
    (standaloneValidation_vs_uiNoPrecheck "" "info" "api" "" sampleOkResp).2.2.2.1⟩

/-- C6: on a successful (2xx) response, both Log Sender variants return the
server's JSON body verbatim, so the acknowledgment's `logID` is exactly the
`logID` of the response, with no transformation. -/
theorem ack_logID_roundtrip
    (token level pkg message : String) (resp : LogsHttpResp)
    (hok : respOk resp.status = true)
    (htok : token ≠ "") (hmsg : message ≠ "") :
    (Starter.logToServer token level pkg message resp).1 = .ok resp.bodyJson
    ∧ (Lib.logToServer token level pkg message resp).1 = .ok resp.bodyJson
    ∧ (Starter.logToServer token level pkg message resp).1.toOption.map
        LogResponse.logID = some resp.bodyJson.logID
    ∧ (Lib.logToServer token level pkg message resp).1.toOption.map
        LogResponse.logID = some resp.bodyJson.logID := by
  have hs : (Starter.logToServer token level pkg message resp).1
      = .ok resp.bodyJson := by
    simp [Starter.logToServer, htok, hmsg, hok]
  have hl : (Lib.logToServer token level pkg message resp).1
      = .ok resp.bodyJson := by
    simp [Lib.logToServer, hok]
  exact ⟨hs, hl, by rw [hs]; rfl, by rw [hl]; rfl⟩

/-- Witness for C6 at a concrete mocked 200 response carrying `log-123`. -/
theorem ack_logID_roundtrip_witness :
    respOk sampleOkResp.status = true
    ∧ ("tok" : String) ≠ ""
    ∧ ("hello" : String) ≠ ""
    ∧ (Starter.logToServer "tok" "info" "api" "hello" sampleOkResp).1
        = .ok sampleOkResp.bodyJson
    ∧ (Lib.logToServer "tok" "info" "api" "hello" sampleOkResp).1
        = .ok sampleOkResp.bodyJson :=
  ⟨by decide, by decide, by decide,
    (ack_logID_roundtrip "tok" "info" "api" "hello" sampleOkResp
      (by decide) (by decide) (by decide)).1,
    (ack_logID_roundtrip "tok" "info" "api" "hello" sampleOkResp
      (by decide) (by decide) (by decide)).2.1⟩

/-- C7 counterexample: the whitespace-only message `"   "` is non-empty,
and with it the standalone Log Sender issues a payload whose message text
is `""`; with the already-trimmed input `jsTrim "   " = ""` the same call
fails locally with a validation error and issues no payload at all. So for
this non-empty message, the outbound message for the input and for its
trimmed form do not coincide. -/
theorem trim_whitespace_only_counterexample :
    ("   " : String) ≠ ""
    ∧ (Starter.logToServer "tok" "info" "api" "   " sampleOkResp).2.map
        (fun req => req.body.message) = some ""
    ∧ jsTrim "   " = ""
    ∧ Starter.logToServer "tok" "info" "api" (jsTrim "   ") sampleOkResp
        = (.error (.validation "Log message is required"), none) :=
  ⟨by decide, rfl, by decide, rfl⟩

/-- C7 amended: for every message whose trim is non-empty (rather than
every non-empty message), the standalone Log Sender's outbound message for
the input equals its outbound message for the already-trimmed input: both
are the trim of the input, by idempotence of trimming. -/
theorem trim_normalizing_amended
    (token level pkg m : String) (resp : LogsHttpResp)
    (htok : token ≠ "") (hm : jsTrim m ≠ "") :
    ∃ req1 req2,
      (Starter.logToServer token level pkg m resp).2 = some req1
      ∧ (Starter.logToServer token level pkg (jsTrim m) resp).2 = some req2
      ∧ req1.body.message = jsTrim m
      ∧ req2.body.message = jsTrim m := by
  have hm0 : m ≠ "" := fun h => hm (by rw [h]; rfl)
  refine ⟨{ url := LOGS_ENDPOINT, method := "POST",
            contentType := "application/json",
            authorization := "Bearer " ++ token,
            body := { stack := "frontend", level := jsToLower level,
                      package := jsToLower pkg, message := jsTrim m } },
          { url := LOGS_ENDPOINT, method := "POST",
            contentType := "application/json",
            authorization := "Bearer " ++ token,
            body := { stack := "frontend", level := jsToLower level,
                      package := jsToLower pkg,
                      message := jsTrim (jsTrim m) } }, ?_, ?_, rfl,
          jsTrim_idem m⟩
  · simp [Starter.logToServer, htok, hm0]
  · simp [Starter.logToServer, htok, hm]

/-- Witness for the amended C7 at the spec's example message. -/
theorem trim_normalizing_amended_witness :
    ("tok" : String) ≠ ""
    ∧ jsTrim "  hello  " = "hello"
    ∧ ∃ req1 req2,
        (Starter.logToServer "tok" "info" "api" "  hello  " sampleOkResp).2
          = some req1
        ∧ (Starter.logToServer "tok" "info" "api" (jsTrim "  hello  ")
            sampleOkResp).2 = some req2
        ∧ req1.body.message = jsTrim "  hello  "
        ∧ req2.body.message = jsTrim "  hello  " :=
  ⟨by decide, by decide,
    trim_normalizing_amended "tok" "info" "api" "  hello  " sampleOkResp
      (by decide) (by decide)⟩

/-- C8 counterexample: the UI-bound Log Sender sends an outbound Log Record
whose message is empty when called with the empty message, while its level
and package inputs are legitimate enumeration members; so an outbound Log
Record does not always carry a non-empty message. -/
theorem nonempty_message_counterexample :
    jsToLower "info" ∈ LEVELS
    ∧ jsToLower "api" ∈ PACKAGES
    ∧ (Lib.logToServer "tok" "info" "api" "" sampleOkResp).2.body.message
        = "" := by
  decide

/-- C8 amended: in both variants, whenever the lowercased level and package
inputs belong to their closed enumerations, the outbound record's severity
and category are those lowercase enumeration members; the outbound message
equals the input message (UI-bound variant) or its trim (standalone
variant), and so may be empty when the input is empty or all whitespace. -/
theorem outbound_enumeration_amended
    (token level pkg message : String) (resp : LogsHttpResp)
    (hl : jsToLower level ∈ LEVELS) (hp : jsToLower pkg ∈ PACKAGES) :
    ((Lib.logToServer token level pkg message resp).2.body.level ∈ LEVELS
      ∧ (Lib.logToServer token level pkg message resp).2.body.package ∈ PACKAGES
      ∧ (Lib.logToServer token level pkg message resp).2.body.message = message)
    ∧ (match (Starter.logToServer token level pkg message resp).2 with
       | none => True
       | some req => req.body.level ∈ LEVELS
           ∧ req.body.package ∈ PACKAGES
           ∧ req.body.message = jsTrim message) := by
  refine ⟨⟨hl, hp, rfl⟩, ?_⟩
  by_cases h1 : token = ""
  · simp [Starter.logToServer, h1]
  · by_cases h2 : message = ""
    · simp [Starter.logToServer, h1, h2]
    · simp [Starter.logToServer, h1, h2]
      exact ⟨hl, hp⟩

/-- Witness for the amended C8 at upper-cased enumeration inputs. -/
theorem outbound_enumeration_amended_witness :
    jsToLower "ERROR" ∈ LEVELS
    ∧ jsToLower "API" ∈ PACKAGES
    ∧ (Lib.logToServer "tok" "ERROR" "API" "m" sampleOkResp).2.body.level ∈ LEVELS
    ∧ (Lib.logToServer "tok" "ERROR" "API" "m" sampleOkResp).2.body.package
        ∈ PACKAGES :=
  ⟨by decide, by decide,
    (outbound_enumeration_amended "tok" "ERROR" "API" "m" sampleOkResp
      (by decide) (by decide)).1.1,
    (outbound_enumeration_amended "tok" "ERROR" "API" "m" sampleOkResp
      (by decide) (by decide)).1.2.1⟩

/-- C9: starting from a retained list of at most 10 entries, after any
`sendLog` call the list still has at most 10 entries; when the held token
is empty the guard (`!token`, also true for the empty string) leaves the
list unchanged, and when it is non-empty the new list is exactly the new
entry consed in front of the old list, truncated to 10, so the newest
entry is first, and when the list was full the oldest (last) entry is the
one evicted. -/
theorem sendLog_retained_list_cap
    (token : Option String) (level pkg message : String)
    (resp : LogsHttpResp) (now ts : String) (logs : List Demo.LogEntry)
    (h : logs.length ≤ 10) :
    (Demo.sendLog token level pkg message resp now ts logs).1.length ≤ 10
    ∧ ∀ tok, token = some tok →
        (tok = "" →
          Demo.sendLog token level pkg message resp now ts logs = (logs, none))
        ∧ (tok ≠ "" →
            (Demo.sendLog token level pkg message resp now ts logs).1
              = (Demo.newEntry level pkg message resp now ts :: logs).take 10
            ∧ (Demo.sendLog token level pkg message resp now ts logs).1.head?
              = some (Demo.newEntry level pkg message resp now ts)
            ∧ (logs.length = 10 →
                (Demo.sendLog token level pkg message resp now ts logs).1
                  = Demo.newEntry level pkg message resp now ts
                      :: logs.dropLast)) := by
  have htake : (Demo.newEntry level pkg message resp now ts :: logs).take 10
      = Demo.newEntry level pkg message resp now ts :: logs.take 9 := by
    rw [show (10 : Nat) = 9 + 1 from rfl, List.take_succ_cons]
  cases token with
  | none => exact ⟨h, fun tok htok => by cases htok⟩
  | some tok =>
    have hempcase : tok = "" →
        Demo.sendLog (some tok) level pkg message resp now ts logs
          = (logs, none) := by
      intro hemp
      simp [Demo.sendLog, hemp]
    have hbranch : tok ≠ "" →
        (Demo.sendLog (some tok) level pkg message resp now ts logs).1
          = (Demo.newEntry level pkg message resp now ts :: logs).take 10 := by
      intro hne
      by_cases hok : respOk resp.status <;>
        simp [Demo.sendLog, Lib.logToServer, Demo.newEntry, hok, hne]
    refine ⟨?_, ?_⟩
    · by_cases hemp : tok = ""
      · rw [hempcase hemp]
        exact h
      · rw [hbranch hemp]
        simp [Nat.min_le_left]
    · rintro tok2 htok
      injection htok with hteq
      subst hteq
      refine ⟨hempcase, fun hne => ⟨hbranch hne, ?_, fun hfull => ?_⟩⟩
      · rw [hbranch hne, htake]; rfl
      · rw [hbranch hne, htake, List.dropLast_eq_take, hfull]

/-- Witness for C9 on a concrete full (10-entry) retained list and a
concrete non-empty token. -/
theorem sendLog_retained_list_cap_witness :
    (List.replicate 10 (Demo.LogEntry.mk "e" "t" "info" "api" "m"
        .success)).length ≤ 10
    ∧ ("tok" : String) ≠ ""
    ∧ (Demo.sendLog (some "tok") "info" "api" "m" sampleOkResp "99" "12:00"
        (List.replicate 10 (Demo.LogEntry.mk "e" "t" "info" "api" "m"
          .success))).1.length ≤ 10
    ∧ (Demo.sendLog (some "tok") "info" "api" "m" sampleOkResp "99" "12:00"
        (List.replicate 10 (Demo.LogEntry.mk "e" "t" "info" "api" "m"
          .success))).1.head?
      = some (Demo.newEntry "info" "api" "m" sampleOkResp "99" "12:00") :=
  ⟨by decide, by decide,
    (sendLog_retained_list_cap (some "tok") "info" "api" "m" sampleOkResp
      "99" "12:00"
      (List.replicate 10 (Demo.LogEntry.mk "e" "t" "info" "api" "m" .success))
      (by decide)).1,
    ((sendLog_retained_list_cap (some "tok") "info" "api" "m" sampleOkResp
      "99" "12:00"
      (List.replicate 10 (Demo.LogEntry.mk "e" "t" "info" "api" "m" .success))
      (by decide)).2 "tok" rfl).2 (by decide) |>.2.1⟩
